import Mathlib

/-!
Verification of the interactive remote-shell proxy and session/command audit
subsystem of the devops-project repository.

The embedding translates the JavaScript source into Lean:
  - the Mongoose Command schema methods classifyCommand and checkIfDangerous
    (models/Command.js) become functions on strings; each JavaScript regular
    expression is compiled into an executable matcher on lists of characters,
    keeping the JavaScript semantics (a dot never matches a line terminator,
    the dollar anchor matches only at the very end, word boundaries test
    word characters, an unescaped parenthesis pair is an empty group);
  - the ServerSession schema (models/ServerSession.js) becomes a structure;
    schema defaults (session_duration defaulting to 0) are applied at record
    creation, as Mongoose does;
  - the socket handlers of server.js (handleSSHConnect, the ssh-input handler,
    the stream data handler, handleSessionEnd) become explicit state-passing
    functions; times are integer milliseconds, Math.floor of a division by
    1000 is integer floor division;
  - the client-side terminal controller (TerminalPage) becomes a state
    structure tracking the global initialization flag and the number of live
    terminal widgets and transport sockets.
-/

namespace DevOps

/-! ## JavaScript string primitives -/

/-- Line terminators of JavaScript regular expressions: the dot never
matches these characters. -/
def isLineTerm (c : Char) : Bool :=
  c = '\n' || c = '\r' || c = '\u2028' || c = '\u2029'

/-- Whitespace recognized by the JavaScript trim function and by the
backslash-s character class (ASCII whitespace plus the common Unicode
space characters). -/
def isJsSpace (c : Char) : Bool :=
  c = ' ' || c = '\t' || c = '\n' || c = '\r' || c = '\x0b' || c = '\x0c' ||
  c = '\u00a0' || c = '\ufeff' || c = '\u2028' || c = '\u2029'

/-- JavaScript String.prototype.trim on a list of characters: drop
whitespace from both ends. -/
def jsTrim (l : List Char) : List Char :=
  ((l.dropWhile isJsSpace).reverse.dropWhile isJsSpace).reverse

/-- Lowercase then trim, as in computing the cmd value of the Command schema
methods: this.command.toLowerCase().trim(). -/
def lowerTrim (s : String) : List Char :=
  jsTrim (s.data.map Char.toLower)

/-- Word characters of the JavaScript backslash-b word boundary. -/
def isWordChar (c : Char) : Bool :=
  c.isAlphanum || c = '_'

/-! ## Command classification (models/Command.js, classifyCommand)

The classifier tests the lowercased trimmed command against regular
expressions of the shape caret, alternation of verbs, then whitespace or
end of input.  Matching such a pattern is: some verb of the list is a
prefix of the command and is followed by a whitespace character or by the
end of the string. -/

/-- One verb of an alternation matches at the start of cmd when it is a
prefix and the next character (if any) is whitespace. -/
def verbMatch (ws : List String) (cmd : List Char) : Bool :=
  ws.any fun w =>
    w.data.isPrefixOf cmd &&
    (match cmd.drop w.data.length with
     | [] => true
     | c :: _ => isJsSpace c)

def systemVerbs : List String :=
  ["ls", "pwd", "cd", "whoami", "id", "uname", "uptime", "date", "cal", "history"]

def fileVerbs : List String :=
  ["cat", "less", "more", "head", "tail", "grep", "find", "locate", "which",
   "file", "stat", "touch", "mkdir", "rmdir", "cp", "mv", "ln", "chmod",
   "chown", "chgrp"]

def networkVerbs : List String :=
  ["ping", "wget", "curl", "ssh", "scp", "ftp", "telnet", "netstat", "ss",
   "lsof", "iptables"]

def processVerbs : List String :=
  ["ps", "top", "htop", "jobs", "kill", "killall", "nohup", "screen", "tmux",
   "bg", "fg"]

inductive CommandType where
  | system | file | network | process | custom | unknown
deriving DecidableEq, Repr

/-- The classifyCommand instance method: first matching category wins, in
the order system, file, network, process, else custom. -/
def classifyCommand (command : String) : CommandType :=
  let cmd := lowerTrim command
  if verbMatch systemVerbs cmd then .system
  else if verbMatch fileVerbs cmd then .file
  else if verbMatch networkVerbs cmd then .network
  else if verbMatch processVerbs cmd then .process
  else .custom

/-! ## Dangerous-command detection (models/Command.js, checkIfDangerous)

Each regular expression of the dangerousPatterns array is compiled to an
executable matcher. -/

/-- Consume one or more whitespace characters (backslash-s plus), maximal
munch; in every pattern below the next required character is not
whitespace, so greedy matching is exact. -/
def skipSpaces1 (l : List Char) : Option (List Char) :=
  match l with
  | c :: rest => if isJsSpace c then some (rest.dropWhile isJsSpace) else none
  | [] => none

/-- Pattern caret rm backslash-s plus, dash r, optional f, backslash-s plus,
slash (recursive force delete of root). -/
def patRmRf (l : List Char) : Bool :=
  match l with
  | 'r' :: 'm' :: rest =>
    match skipSpaces1 rest with
    | some ('-' :: 'r' :: rest2) =>
      let rest3 := match rest2 with
        | 'f' :: r => r
        | _ => rest2
      (match skipSpaces1 rest3 with
       | some ('/' :: _) => true
       | _ => false)
    | _ => false
  | _ => false

/-- Pattern caret dd backslash-s plus if equals (raw device writes). -/
def patDd (l : List Char) : Bool :=
  match l with
  | 'd' :: 'd' :: rest =>
    match skipSpaces1 rest with
    | some ('i' :: 'f' :: '=' :: _) => true
    | _ => false
  | _ => false

/-- Pattern caret mkfs (filesystem format). -/
def patMkfs (l : List Char) : Bool :=
  "mkfs".data.isPrefixOf l

/-- Pattern caret fdisk (partition table edits). -/
def patFdisk (l : List Char) : Bool :=
  "fdisk".data.isPrefixOf l

/-- The fork-bomb pattern: in the JavaScript source the parenthesis pair is
an unescaped empty group, so the regular expression matches the literal
prefix colon, open brace, space, colon, pipe, colon, ampersand, space,
close brace, semicolon, colon. -/
def patForkBomb (l : List Char) : Bool :=
  ":\x7b :|:& \x7d;:".data.isPrefixOf l

/-- Pattern caret sudo backslash-s plus rm (privileged delete). -/
def patSudoRm (l : List Char) : Bool :=
  match l with
  | 's' :: 'u' :: 'd' :: 'o' :: rest =>
    match skipSpaces1 rest with
    | some ('r' :: 'm' :: _) => true
    | _ => false
  | _ => false

/-- Word w matches at the current position, bounded by word boundaries:
the previous character (if any) is not a word character, w is a prefix,
and the character after w (if any) is not a word character. -/
def boundedAt (w : List Char) (prev : Option Char) (l : List Char) : Bool :=
  (match prev with
   | some c => !isWordChar c
   | none => true) &&
  w.isPrefixOf l &&
  (match l.drop w.length with
   | [] => true
   | c :: _ => !isWordChar c)

/-- Scan for a word-bounded occurrence of passwd reachable through
non-line-terminator characters (the dot-star of the pattern). -/
def searchPasswd (prev : Option Char) (l : List Char) : Bool :=
  if boundedAt "passwd".data prev l then true
  else
    match l with
    | [] => false
    | c :: rest => if isLineTerm c then false else searchPasswd (some c) rest

/-- Pattern word boundary sudo word boundary, dot star, word boundary
passwd word boundary (privileged password change), unanchored: scan every
position for a word-bounded sudo followed by a reachable word-bounded
passwd. -/
def searchSudoPasswd (prev : Option Char) (l : List Char) : Bool :=
  (boundedAt "sudo".data prev l && searchPasswd (some 'o') (l.drop 4)) ||
  (match l with
   | [] => false
   | c :: rest => searchSudoPasswd (some c) rest)

def patSudoPasswd (l : List Char) : Bool :=
  searchSudoPasswd none l

/-- Pattern caret chmod backslash-s plus 777 (overly permissive modes). -/
def patChmod777 (l : List Char) : Bool :=
  match l with
  | 'c' :: 'h' :: 'm' :: 'o' :: 'd' :: rest =>
    match skipSpaces1 rest with
    | some ('7' :: '7' :: '7' :: _) => true
    | _ => false
  | _ => false

/-- Suffix matcher for backslash-s star, sh, dollar: the remaining
characters are whitespace followed by exactly sh at the end. -/
def tailSpacesSh (l : List Char) : Bool :=
  match l with
  | ['s', 'h'] => true
  | c :: rest => isJsSpace c && tailSpacesSh rest
  | [] => false

/-- Scan for a pipe character reachable through non-line-terminator
characters whose suffix is whitespace then sh at the end of input. -/
def pipeSpacesShEnd (l : List Char) : Bool :=
  match l with
  | [] => false
  | c :: rest =>
    if c = '|' && tailSpacesSh rest then true
    else if isLineTerm c then false
    else pipeSpacesShEnd rest

/-- Pattern caret curl dot star pipe backslash-s star sh dollar (piping a
download into a shell). -/
def patCurlSh (l : List Char) : Bool :=
  "curl".data.isPrefixOf l && pipeSpacesShEnd (l.drop 4)

/-- Pattern caret wget dot star pipe backslash-s star sh dollar. -/
def patWgetSh (l : List Char) : Bool :=
  "wget".data.isPrefixOf l && pipeSpacesShEnd (l.drop 4)

/-- Scan for a greater-than character reachable through
non-line-terminator characters (dot star, greater-than). -/
def hasGtNoTerm (l : List Char) : Bool :=
  match l with
  | [] => false
  | c :: rest =>
    if c = '>' then true
    else if isLineTerm c then false
    else hasGtNoTerm rest

def devNames : List String := ["null", "zero", "random", "urandom"]

/-- After the literal slash dev slash, one of the device names must match
and a greater-than character must be reachable afterwards. -/
def devTail (rest : List Char) : Bool :=
  devNames.any fun n =>
    n.data.isPrefixOf rest && hasGtNoTerm (rest.drop n.data.length)

/-- Device-name head matcher for the redirect-to-device pattern. -/
def devAt (l : List Char) : Bool :=
  match l with
  | '/' :: 'd' :: 'e' :: 'v' :: '/' :: rest => devTail rest
  | _ => false

/-- Pattern slash dev slash, alternation of null zero random urandom, dot
star, greater-than, unanchored: scan every position. -/
def patDevRedirect (l : List Char) : Bool :=
  match l with
  | [] => false
  | c :: rest => devAt (c :: rest) || patDevRedirect rest

/-- The checkIfDangerous instance method: the danger flag is the
disjunction of the eleven patterns over the lowercased trimmed text. -/
def checkIfDangerous (command : String) : Bool :=
  let cmd := lowerTrim command
  patRmRf cmd || patDd cmd || patMkfs cmd || patFdisk cmd || patForkBomb cmd ||
  patSudoRm cmd || patSudoPasswd cmd || patChmod777 cmd || patCurlSh cmd ||
  patWgetSh cmd || patDevRedirect cmd

/-! ## Session records (models/ServerSession.js and server.js)

A ServerSession document.  Times are integer milliseconds since the epoch;
Math.floor of the millisecond difference divided by 1000 is integer floor
division (Int.fdiv).  The Mongoose schema gives session_duration the
default 0, so the field is present from creation; logout_time has no
default and is absent while the session is open. -/

inductive SessionStatus where
  | active | disconnected | timeout
deriving DecidableEq, Repr

structure ServerSession where
  user_id : String
  server_ip : String
  server_name : String
  ssh_username : String
  login_time : Int
  logout_time : Option Int
  session_duration : Option Int
  status : SessionStatus
  commands_executed : List Nat
deriving DecidableEq, Repr

/-- Session creation in handleSSHConnect: the code sets user_id, server_ip,
server_name, ssh_username, login_time and status active; the schema default
fills session_duration with 0 and leaves logout_time absent. -/
def newServerSession (uid ip nm sshUser : String) (now : Int) : ServerSession :=
  { user_id := uid
    server_ip := ip
    server_name := nm
    ssh_username := sshUser
    login_time := now
    logout_time := none
    session_duration := some 0
    status := .active
    commands_executed := [] }

/-- The body of handleSessionEnd applied to the session record: set the
logout time, compute the duration as Math.floor of the millisecond
difference over 1000, and set the status to disconnected. -/
def finalizeSession (s : ServerSession) (now : Int) : ServerSession :=
  { s with
    logout_time := some now
    session_duration := some ((now - s.login_time).fdiv 1000)
    status := .disconnected }

/-! ## Per-connection state and handleSessionEnd (server.js)

Each socket connection closure holds currentSession (initially null) and
the process-wide activeSessions map holds one entry per socket id.  The
registry flag below stands for membership of this socket id in the map.
handleSessionEnd runs whenever currentSession is set; the code never
clears currentSession afterwards, so a later close signal runs the body
again. -/

structure ConnState where
  currentSession : Option ServerSession
  registryHasEntry : Bool
deriving DecidableEq, Repr

/-- The handleSessionEnd closure of server.js on the connection state:
when a current session exists, finalize it, save, and delete the registry
entry; currentSession is left pointing at the finalized record. -/
def handleSessionEnd (st : ConnState) (now : Int) : ConnState :=
  match st.currentSession with
  | none => st
  | some s =>
    { currentSession := some (finalizeSession s now)
      registryHasEntry := false }

/-! ## Process-wide server state and the connect handler (server.js)

The ServerSession collection is an append-on-save list of records with
their ids; the activeSessions map is an association list keyed by socket
id, written with Map.set semantics (overwrite the existing key, else
append). -/

structure ServerState where
  store : List (Nat × ServerSession)
  registry : List (String × Nat)
deriving DecidableEq, Repr

/-- JavaScript Map.set on an association list: replace the value at an
existing key, otherwise append a new entry. -/
def mapSet (reg : List (String × Nat)) (k : String) (v : Nat) :
    List (String × Nat) :=
  match reg with
  | [] => [(k, v)]
  | (k', v') :: rest =>
    if k' = k then (k, v) :: rest else (k', v') :: mapSet rest k v

/-- Number of registry entries stored under a key. -/
def countKey (reg : List (String × Nat)) (k : String) : Nat :=
  match reg with
  | [] => 0
  | (k', _) :: rest => (if k' = k then 1 else 0) + countKey rest k

/-- Number of sessions of the collection whose status is active. -/
def activeCount (st : ServerState) : Nat :=
  (st.store.filter fun p => p.2.status = SessionStatus.active).length

/-- The success path of handleSSHConnect after the SSH shell opened: a new
ServerSession record with status active is saved to the collection and the
activeSessions map entry for this socket is set (overwriting any previous
entry).  Returns the new state and the id of the created session. -/
def connectSuccess (st : ServerState) (socketId : String)
    (uid host nm sshUser : String) (now : Int) : ServerState × Nat :=
  let id := st.store.length
  let sess := newServerSession uid host nm sshUser now
  ({ store := st.store ++ [(id, sess)]
     registry := mapSet st.registry socketId id }, id)

/-! ## Connect-request validation (server.js, handleSSHConnect)

The handler extracts host, username and password, resolves the requesting
user through a cascade of legacy payload shapes, and throws before any
session is created when a required field is falsy or no user id resolves.
Only the identity-bearing part of each payload shape is modelled; name,
email and role do not influence validation. -/

structure ConnectionData where
  host : Option String
  username : Option String
  password : Option String
  serverName : Option String
  server_name : Option String
  userId : Option String
  userObj : Option (Option String)
  userDataObj : Option (Option String)
  user_id : Option String
  id : Option String
deriving Repr

/-- JavaScript truthiness of an optional string field: absent, null and
the empty string are falsy. -/
def truthy (o : Option String) : Bool :=
  match o with
  | none => false
  | some s => !s.isEmpty

/-- JavaScript logical-or on optional string values: the first operand if
truthy, otherwise the second. -/
def jsOr (a b : Option String) : Option String :=
  if truthy a then a else b

/-- The user-data extraction cascade of handleSSHConnect, restricted to
the id: the userId field wins if truthy; else a present user object
supplies its id; else a present user_data object supplies its id; else
the fallback takes user_id or id. -/
def extractUserId (d : ConnectionData) : Option String :=
  if truthy d.userId then d.userId
  else
    match d.userObj with
    | some uid => uid
    | none =>
      match d.userDataObj with
      | some uid => uid
      | none => jsOr d.user_id d.id

/-- The full handleSSHConnect up to session creation: missing host,
username or password throws; an unresolvable user id throws; a failed SSH
connect throws; each throw is caught and reported to the client as an
ssh-error event, modelled as Except.error, with the server state
untouched.  On success the session is created and registered. -/
def handleSSHConnect (st : ServerState) (socketId : String)
    (d : ConnectionData) (sshOk : Bool) (now : Int) :
    ServerState × Except String Nat :=
  if !truthy d.host || !truthy d.username || !truthy d.password then
    (st, .error "Missing required connection parameters: host, username, or password")
  else if !truthy (extractUserId d) then
    (st, .error "Missing or invalid user data")
  else if !sshOk then
    (st, .error "SSH connection error")
  else
    let host := (d.host).getD ""
    let nm := (jsOr d.serverName (jsOr d.server_name
      (some ("Server " ++ host)))).getD ""
    let r := connectSuccess st socketId ((extractUserId d).getD "") host nm
      ((d.username).getD "") now
    (r.1, .ok r.2)

/-! ## Keystroke input handler (server.js, the ssh-input socket event)

For each inbound chunk: when the stream is alive the chunk is first
written to the shell stream; then, when the chunk contains a carriage
return or line feed, the trimmed accumulator (which the chunk itself was
never appended to) is taken as the candidate command, persisted when
non-empty and a session exists, and the accumulator is reset; otherwise
the chunk is appended to the accumulator.  A failing database write is
caught and logged (persistOk false yields no stored command), after which
the handler still resets the accumulator.  Chunks are modelled as lists of
characters.  The step returns the chunks written to the shell stream, the
new accumulator, and the persisted command text if any. -/

def containsCRLF (input : List Char) : Bool :=
  input.any fun c => c = '\r' || c = '\n'

def sshInputStep (streamAlive sessionPresent persistOk : Bool)
    (buf input : List Char) :
    List (List Char) × List Char × Option (List Char) :=
  if streamAlive then
    if containsCRLF input then
      let command := jsTrim buf
      let persisted :=
        if !command.isEmpty && sessionPresent then
          (if persistOk then some command else none)
        else none
      ([input], [], persisted)
    else ([input], buf ++ input, none)
  else ([], buf, none)

/-- One fold step of the command buffer of an open session with the audit
write succeeding: state is the accumulator and the emitted command texts. -/
def bufferStep (st : List Char × List (List Char)) (input : List Char) :
    List Char × List (List Char) :=
  let r := sshInputStep true true true st.1 input
  (r.2.1, st.2 ++ r.2.2.toList)

/-- Feed a chunk sequence to the command buffer of an open session with
all database writes succeeding; returns the final accumulator and the
emitted command texts in order. -/
def runCommandBuffer (chunks : List (List Char)) :
    List Char × List (List Char) :=
  chunks.foldl bufferStep ([], [])

/-- One fold step of the input relay: the state is the accumulator, the
chunks forwarded to the shell stream, and the persisted command texts; the
step consumes a chunk paired with the outcome of its audit write. -/
def relayStep (st : List Char × List (List Char) × List (List Char))
    (step : List Char × Bool) :
    List Char × List (List Char) × List (List Char) :=
  let r := sshInputStep true true step.2 st.1 step.1
  (r.2.1, st.2.1 ++ r.1, st.2.2 ++ r.2.2.toList)

/-- Feed a sequence of chunks paired with the outcome of their audit
write (true means the write succeeds); returns the final accumulator, the
chunks forwarded to the shell stream in order, and the persisted command
texts. -/
def runRelay (steps : List (List Char × Bool)) :
    List Char × List (List Char) × List (List Char) :=
  steps.foldl relayStep ([], [], [])

/-- Counting rule stated from the amended buffer description: walking the
chunk sequence with an accumulator, a chunk containing a carriage return
or line feed contributes one emission exactly when the trimmed accumulator
gathered from the preceding newline-free chunks is non-empty, and resets
the accumulator; a newline-free chunk is appended. -/
def specEmissionCount (buf : List Char) : List (List Char) → Nat
  | [] => 0
  | input :: rest =>
    if containsCRLF input then
      (if (jsTrim buf).isEmpty then 0 else 1) + specEmissionCount [] rest
    else specEmissionCount (buf ++ input) rest

/-! ## Shell output relay (server.js, the stream data event)

Each data chunk from the shell stream is emitted to the client as an
ssh-output event as it arrives, then appended to the captured output of
the pending command when one exists.  Chunks are modelled as the decoded
text of the received bytes. -/

def onShellData (capture : Option (List Char)) (chunk : List Char) :
    Option (List Char) × List Char :=
  (capture.map (fun out => out ++ chunk), chunk)

/-- One fold step of the output relay: state is the pending capture and
the ssh-output payloads emitted so far. -/
def outputStep (st : Option (List Char) × List (List Char))
    (chunk : List Char) : Option (List Char) × List (List Char) :=
  let r := onShellData st.1 chunk
  (r.1, st.2 ++ [r.2])

/-- Relay a sequence of shell output chunks, collecting the ssh-output
event payloads in emission order. -/
def relayShellOutput (capture : Option (List Char))
    (chunks : List (List Char)) : Option (List Char) × List (List Char) :=
  chunks.foldl outputStep (capture, [])

/-! ## Client-side terminal controller (TerminalPage, initializeTerminal)

The module holds a global initialization flag, a global terminal widget
and a global socket.  initializeTerminal returns immediately (reusing the
existing instances) when the flag is set; otherwise it sets the flag, then
creates one terminal widget, disconnects a leftover global socket if one
exists, and creates one new socket. -/

structure ClientState where
  globalIsInitialized : Bool
  liveTerminals : Nat
  liveSockets : Nat
deriving DecidableEq, Repr

def freshClientState : ClientState :=
  { globalIsInitialized := false, liveTerminals := 0, liveSockets := 0 }

def initializeTerminal (st : ClientState) : ClientState :=
  if st.globalIsInitialized then st
  else
    { globalIsInitialized := true
      liveTerminals := st.liveTerminals + 1
      liveSockets :=
        (if 0 < st.liveSockets then st.liveSockets - 1 else st.liveSockets) + 1 }

/-! ## Auxiliary concrete data and spec-side statements -/

/-- A fully valid connect payload used for concrete runs. -/
def validConnData : ConnectionData :=
  { host := some "10.0.0.5"
    username := some "root"
    password := some "pw"
    serverName := some "lab"
    server_name := none
    userId := some "u1"
    userObj := none
    userDataObj := none
    user_id := none
    id := none }

/-- A connect payload with every field absent. -/
def emptyConnData : ConnectionData :=
  { host := none
    username := none
    password := none
    serverName := none
    server_name := none
    userId := none
    userObj := none
    userDataObj := none
    user_id := none
    id := none }

/-- Amended duration law: the duration field is always present; it is 0
while the session is open and equals the floor of the millisecond
difference between closing and creation over 1000 once closed. -/
def durationFieldLaw (s : ServerSession) : Prop :=
  match s.logout_time with
  | some t => s.session_duration = some ((t - s.login_time).fdiv 1000)
  | none => s.session_duration = some 0

/-! ## Theorems -/

/-- Within non-line-terminator characters, a later greater-than sign is
always reached by the scan. -/
theorem hasGtNoTerm_of_clean (b c : List Char)
    (h : ∀ x ∈ b, isLineTerm x = false) :
    hasGtNoTerm (b ++ '>' :: c) = true := by
  induction b with
  | nil => simp [hasGtNoTerm]
  | cons x b ih =>
    have hx : isLineTerm x = false := h x (List.mem_cons_self x b)
    by_cases hgt : x = '>'
    · simp [hasGtNoTerm, hgt]
    · simp only [List.cons_append, hasGtNoTerm, hgt, hx, if_false]
      exact ih fun y hy => h y (List.mem_cons_of_mem x hy)

/-- The device-redirect head matcher accepts any decomposition starting
with a device name followed by a reachable greater-than sign. -/
theorem devAt_of_split (name : String) (b c : List Char)
    (hname : name ∈ devNames) (hclean : ∀ x ∈ b, isLineTerm x = false) :
    devAt ('/' :: 'd' :: 'e' :: 'v' :: '/' :: (name.data ++ (b ++ '>' :: c)))
      = true := by
  show devTail (name.data ++ (b ++ '>' :: c)) = true
  unfold devTail
  rw [List.any_eq_true]
  refine ⟨name, hname, ?_⟩
  have h1 : name.data.isPrefixOf (name.data ++ (b ++ '>' :: c)) = true := by
    simp
  have h2 : (name.data ++ (b ++ '>' :: c)).drop name.data.length
      = b ++ '>' :: c := List.drop_left _ _
  rw [Bool.and_eq_true]
  exact ⟨h1, by rw [h2]; exact hasGtNoTerm_of_clean b c hclean⟩

/-- The unanchored device-redirect scan succeeds on any suffix accepted
by the head matcher. -/
theorem patDevRedirect_of_suffix (a rest : List Char)
    (h : devAt rest = true) :
    patDevRedirect (a ++ rest) = true := by
  induction a with
  | nil =>
    cases rest with
    | nil => simp [devAt] at h
    | cons x r => simp [patDevRedirect, h]
  | cons x a ih => simp [patDevRedirect, ih]

/-- Claim C10 counterexample: a creatable command text (it holds no
carriage return and no line feed, so the input handler buffers it intact)
whose lowercased trimmed text contains dev null followed later by a
greater-than sign, yet whose danger flag stays false: the separator
U+2028 sits between the device name and the greater-than sign, the
regular-expression dot cannot cross it, and the input pipeline filters
only carriage return and line feed, so the claim fails as stated. -/
theorem dev_redirect_gap_terminator_counterexample :
    lowerTrim "cat /dev/null \u2028> log"
      = "cat ".data ++ ('/' :: 'd' :: 'e' :: 'v' :: '/' ::
          ("null".data ++ ((' ' :: '\u2028' :: []) ++ '>' :: " log".data))) ∧
    containsCRLF "cat /dev/null \u2028> log".data = false ∧
    checkIfDangerous "cat /dev/null \u2028> log" = false := by
  decide

/-- Claim C10 amended: every command whose lowercased trimmed text
contains one of the device paths dev null, dev zero, dev random or dev
urandom followed later by a greater-than sign, with no line terminator
(carriage return, line feed, U+2028, U+2029) among the characters between
the device name and that greater-than sign, is flagged dangerous at
creation, whether or not any other unsafe pattern matches; when every
later greater-than sign lies beyond a line terminator the flag stays
false, because the regular-expression dot cannot cross it. -/
theorem dev_redirect_flagged_dangerous (s : String) (a b c : List Char)
    (name : String) (hname : name ∈ devNames)
    (hclean : ∀ x ∈ b, isLineTerm x = false)
    (hsplit : lowerTrim s
      = a ++ ('/' :: 'd' :: 'e' :: 'v' :: '/' :: (name.data ++ (b ++ '>' :: c)))) :
    checkIfDangerous s = true := by
  have hdev : patDevRedirect (lowerTrim s) = true := by
    rw [hsplit]
    exact patDevRedirect_of_suffix _ _ (devAt_of_split name b c hname hclean)
  unfold checkIfDangerous
  simp [hdev]

/-- Claim C10 witness: the command cat dev null redirect log is flagged
dangerous although it matches no other unsafe pattern. -/
theorem dev_redirect_flagged_dangerous_witness :
    checkIfDangerous "cat /dev/null > log" = true :=
  dev_redirect_flagged_dangerous "cat /dev/null > log"
    "cat ".data [' '] " log".data "null" (by decide) (by decide) (by decide)

/-- Claim C5: the classifier maps ls dash la to category system with the
danger flag false, flags rm dash rf slash, chmod 777 file, and curl piped
into sh as dangerous, and maps myscript.sh to category custom with the
danger flag false. -/
theorem classifier_examples :
    classifyCommand "ls -la" = CommandType.system ∧
    checkIfDangerous "ls -la" = false ∧
    checkIfDangerous "rm -rf /" = true ∧
    checkIfDangerous "chmod 777 file" = true ∧
    checkIfDangerous "curl http://x | sh" = true ∧
    classifyCommand "myscript.sh" = CommandType.custom ∧
    checkIfDangerous "myscript.sh" = false := by
  decide

/-- Claim C1 counterexample: finalize is not guarded by a single-use
flag.  The code never clears currentSession, so after finalizing at time
1000 ms a second close signal at 5000 ms runs the finalize body again and
overwrites the closing timestamp and the duration; the second invocation
does not leave the record unchanged. -/
theorem finalize_rerun_counterexample :
    (handleSessionEnd (handleSessionEnd
        { currentSession := some (newServerSession "u" "h" "n" "l" 0)
          registryHasEntry := true } 1000) 5000).currentSession
      = some { newServerSession "u" "h" "n" "l" 0 with
               logout_time := some 5000
               session_duration := some 5
               status := SessionStatus.disconnected } ∧
    handleSessionEnd (handleSessionEnd
        { currentSession := some (newServerSession "u" "h" "n" "l" 0)
          registryHasEntry := true } 1000) 5000
      ≠ handleSessionEnd
        { currentSession := some (newServerSession "u" "h" "n" "l" 0)
          registryHasEntry := true } 1000 := by
  decide

/-- Claim C1 amended: finalize runs once per close signal, not at most
once per session.  A second close signal re-runs the body and overwrites
the closing timestamp and the duration with values computed from the
later time; the status stays disconnected and the registry entry stays
removed, so only the status component is idempotent. -/
theorem finalize_second_signal_overwrites (s : ServerSession) (t1 t2 : Int) :
    (handleSessionEnd (handleSessionEnd
        { currentSession := some s, registryHasEntry := true } t1) t2).currentSession
      = some { s with
               logout_time := some t2
               session_duration := some ((t2 - s.login_time).fdiv 1000)
               status := SessionStatus.disconnected } ∧
    (handleSessionEnd (handleSessionEnd
        { currentSession := some s, registryHasEntry := true } t1) t2).registryHasEntry
      = false ∧
    (handleSessionEnd
        { currentSession := some s, registryHasEntry := true } t1).currentSession
      = some { s with
               logout_time := some t1
               session_duration := some ((t1 - s.login_time).fdiv 1000)
               status := SessionStatus.disconnected } :=
  ⟨rfl, rfl, rfl⟩

/-- Claim C2 counterexample: the chunk sequence ls dash la CR, then CR,
then pwd LF (each string one chunk) yields no Command at all, not the two
Commands the claim states, because a chunk containing a carriage return
or line feed is never appended to the accumulator before detection. -/
theorem buffer_chunk_example_counterexample :
    (runCommandBuffer ["ls -la\r".data, "\r".data, "pwd\n".data]).2 = [] ∧
    ¬(runCommandBuffer ["ls -la\r".data, "\r".data, "pwd\n".data]).2
        = ["ls -la".data, "pwd".data] := by
  decide

/-- Fold form of the emission count: emitted commands accumulate onto out
while the chunk walk follows the amended counting rule. -/
theorem bufferStep_count (chunks : List (List Char)) :
    ∀ buf out,
      ((chunks.foldl bufferStep (buf, out)).2).length
        = out.length + specEmissionCount buf chunks := by
  induction chunks with
  | nil => intro buf out; simp [specEmissionCount]
  | cons input rest ih =>
    intro buf out
    by_cases h : containsCRLF input
    · by_cases he : (jsTrim buf).isEmpty
      · simp [List.foldl_cons, bufferStep, sshInputStep, h, he,
          specEmissionCount, ih]
      · simp [List.foldl_cons, bufferStep, sshInputStep, h, he,
          specEmissionCount, ih]
        omega
    · simp [List.foldl_cons, bufferStep, sshInputStep, h, specEmissionCount, ih]

/-- Claim C2 amended: a chunk free of carriage return and line feed is
appended to the accumulator; a chunk containing either is not appended
but triggers detection, emitting one Command exactly when the trimmed
accumulator gathered from the preceding chunks is non-empty, then resets
the accumulator.  Consequently the given three-chunk sequence yields zero
Commands, while the same keystrokes fed one character per chunk yield
exactly the two Commands ls dash la and pwd. -/
theorem buffer_emission_amended :
    (∀ chunks : List (List Char),
      (runCommandBuffer chunks).2.length = specEmissionCount [] chunks) ∧
    (runCommandBuffer ["ls -la\r".data, "\r".data, "pwd\n".data]).2.length = 0 ∧
    (runCommandBuffer [['l'], ['s'], [' '], ['-'], ['l'], ['a'], ['\r'],
        ['\r'], ['p'], ['w'], ['d'], ['\n']]).2
      = ["ls -la".data, "pwd".data] := by
  refine ⟨fun chunks => ?_, by decide, by decide⟩
  simpa [runCommandBuffer] using bufferStep_count chunks [] []

/-- Claim C3 counterexample: a freshly created session has no closing
timestamp yet its duration field is present with the schema default 0, so
duration is not absent exactly when the closing timestamp is absent. -/
theorem open_session_duration_counterexample :
    (newServerSession "u" "h" "n" "l" 0).logout_time = none ∧
    ¬(newServerSession "u" "h" "n" "l" 0).session_duration = none := by
  decide

/-- Claim C3 amended: the duration field is always present: it is 0 (the
schema default) while the session is open, and once the closing timestamp
is set it equals the floor of the millisecond difference between closing
and creation divided by 1000. -/
theorem duration_field_amended :
    (∀ uid ip nm lu : String, ∀ t : Int,
      durationFieldLaw (newServerSession uid ip nm lu t)) ∧
    (∀ s : ServerSession, ∀ t : Int, durationFieldLaw (finalizeSession s t)) :=
  ⟨fun _ _ _ _ _ => rfl, fun _ _ => rfl⟩

/-- Claim C4 counterexample: two connect requests on the same transport
connection, the second arriving while the first session is still active,
leave two Session records simultaneously in status active. -/
theorem second_connect_counterexample :
    activeCount (handleSSHConnect
      (handleSSHConnect { store := [], registry := [] } "S" validConnData true 0).1
      "S" validConnData true 10).1 = 2 := by
  decide

/-- Each successful connect appends exactly one active session record. -/
theorem activeCount_connectSuccess (st : ServerState)
    (sid uid host nm lu : String) (t : Int) :
    activeCount (connectSuccess st sid uid host nm lu t).1
      = activeCount st + 1 := by
  simp [activeCount, connectSuccess, newServerSession, List.filter_append]

/-- Map.set leaves exactly one entry under the written key when the key
was absent, and the existing number of entries otherwise. -/
theorem countKey_mapSet (reg : List (String × Nat)) (k : String) (v : Nat) :
    countKey (mapSet reg k v) k = max 1 (countKey reg k) := by
  induction reg with
  | nil => simp [mapSet, countKey]
  | cons p rest ih =>
    obtain ⟨k', v'⟩ := p
    by_cases h : k' = k
    · simp [mapSet, countKey, h]
    · simp [mapSet, countKey, h, ih]

/-- Claim C4 amended: a second connect request on the same transport
connection creates a second Session record with status active while the
first also remains active in the store (the handler neither rejects the
request nor finalizes the previous session); only the Active Connection
Registry keeps a single entry for the connection, overwritten to point at
the newest session. -/
theorem second_connect_amended (st : ServerState) (sid : String)
    (u1 h1 n1 l1 : String) (t1 : Int) (u2 h2 n2 l2 : String) (t2 : Int) :
    activeCount (connectSuccess
        (connectSuccess st sid u1 h1 n1 l1 t1).1 sid u2 h2 n2 l2 t2).1
      = activeCount st + 2 ∧
    countKey (connectSuccess
        (connectSuccess st sid u1 h1 n1 l1 t1).1 sid u2 h2 n2 l2 t2).1.registry sid
      = max 1 (countKey st.registry sid) := by
  constructor
  · rw [activeCount_connectSuccess, activeCount_connectSuccess]
  · show countKey (mapSet (mapSet st.registry sid _) sid _) sid = _
    rw [countKey_mapSet, countKey_mapSet]
    omega

/-- Claim C6: a connect request missing the target host, remote login or
remote credential, or whose requesting-user identity does not resolve to
an id, creates no Session record (the server state is untouched) and the
caller receives an explicit error signal. -/
theorem connect_validation_rejects (st : ServerState) (sid : String)
    (d : ConnectionData) (sshOk : Bool) (now : Int)
    (h : (!truthy d.host || !truthy d.username || !truthy d.password
          || !truthy (extractUserId d)) = true) :
    (handleSSHConnect st sid d sshOk now).1 = st ∧
    ∃ msg, (handleSSHConnect st sid d sshOk now).2 = Except.error msg := by
  by_cases h1 : (!truthy d.host || !truthy d.username || !truthy d.password) = true
  · unfold handleSSHConnect
    rw [if_pos h1]
    exact ⟨rfl, _, rfl⟩
  · have h2 : (!truthy (extractUserId d)) = true := by
      simp only [Bool.or_eq_true] at h h1
      tauto
    unfold handleSSHConnect
    rw [if_neg h1, if_pos h2]
    exact ⟨rfl, _, rfl⟩

/-- Claim C6 witness: the empty connect payload is rejected with an error
and leaves the empty server state unchanged. -/
theorem connect_validation_rejects_witness :
    (handleSSHConnect { store := [], registry := [] } "S" emptyConnData true 0).1
      = { store := [], registry := [] } ∧
    ∃ msg, (handleSSHConnect { store := [], registry := [] } "S" emptyConnData
        true 0).2 = Except.error msg :=
  connect_validation_rejects { store := [], registry := [] } "S" emptyConnData
    true 0 (by decide)

/-- The handler forwards the chunk to the shell stream whatever the audit
write outcome is. -/
theorem sshInputStep_forward (p : Bool) (buf input : List Char) :
    (sshInputStep true true p buf input).1 = [input] := by
  by_cases h : containsCRLF input <;> simp [sshInputStep, h]

/-- The accumulator evolution does not depend on the audit write
outcome. -/
theorem sshInputStep_buffer (p : Bool) (buf input : List Char) :
    (sshInputStep true true p buf input).2.1
      = (sshInputStep true true true buf input).2.1 := by
  by_cases h : containsCRLF input <;> simp [sshInputStep, h]

/-- One relay step in explicit form: the chunk is appended to the
forwarded list and the accumulator moves as in the all-success run. -/
theorem relayStep_eq (buf : List Char) (fwd per : List (List Char))
    (input : List Char) (p : Bool) :
    relayStep (buf, fwd, per) (input, p)
      = ((sshInputStep true true true buf input).2.1, fwd ++ [input],
         per ++ (sshInputStep true true p buf input).2.2.toList) := by
  simp [relayStep, sshInputStep_forward, sshInputStep_buffer]

/-- Fold form: the forwarded chunks are exactly the inbound chunks in
order, and the accumulator equals the accumulator of the run in which
every audit write succeeds. -/
theorem relay_fold (steps : List (List Char × Bool)) :
    ∀ buf fwd per fwd' per',
      (steps.foldl relayStep (buf, fwd, per)).2.1 = fwd ++ steps.map Prod.fst ∧
      (steps.foldl relayStep (buf, fwd, per)).1
        = ((steps.map fun q => (q.1, true)).foldl relayStep
            (buf, fwd', per')).1 := by
  induction steps with
  | nil => intro buf fwd per fwd' per'; simp
  | cons q rest ih =>
    intro buf fwd per fwd' per'
    obtain ⟨input, p⟩ := q
    simp only [List.map_cons, List.foldl_cons, relayStep_eq]
    constructor
    · have h1 := (ih ((sshInputStep true true true buf input).2.1)
        (fwd ++ [input])
        (per ++ (sshInputStep true true p buf input).2.2.toList) [] []).1
      rw [h1]
      simp
    · exact (ih ((sshInputStep true true true buf input).2.1)
        (fwd ++ [input])
        (per ++ (sshInputStep true true p buf input).2.2.toList)
        (fwd' ++ [input])
        (per' ++ (sshInputStep true true true buf input).2.2.toList)).2

/-- Claim C7: every inbound chunk of an open session is forwarded to the
remote shell in order whether the audit write of a detected command
succeeds or fails; a persistence failure is swallowed and leaves the
accumulator exactly as in the all-success run, so the handling of every
subsequent chunk is unchanged as well. -/
theorem persistence_outcome_never_blocks_relay
    (steps : List (List Char × Bool)) :
    (runRelay steps).2.1 = steps.map Prod.fst ∧
    (runRelay steps).1 = (runRelay (steps.map fun q => (q.1, true))).1 := by
  have h := relay_fold steps [] [] [] [] []
  simpa [runRelay] using h

/-- Claim C8: with the global guard flag, a second initialization call
before teardown is a no-op that reuses the live instance, and from a
fresh tab exactly one terminal widget and one transport socket exist
after initialization. -/
theorem client_initialize_singleton (st : ClientState) :
    initializeTerminal (initializeTerminal st) = initializeTerminal st ∧
    (initializeTerminal freshClientState).liveTerminals = 1 ∧
    (initializeTerminal freshClientState).liveSockets = 1 := by
  refine ⟨?_, by decide, by decide⟩
  by_cases h : st.globalIsInitialized
  · simp [initializeTerminal, h]
  · simp [initializeTerminal, h]

/-- Fold form of the output relay: the emitted payloads extend the
accumulated list with exactly the arriving chunks. -/
theorem output_fold (chunks : List (List Char)) :
    ∀ cap acc, (chunks.foldl outputStep (cap, acc)).2 = acc ++ chunks := by
  induction chunks with
  | nil => intro cap acc; simp
  | cons ch rest ih =>
    intro cap acc
    simp [List.foldl_cons, outputStep, onShellData, ih]

/-- Claim C9: every byte chunk read from the remote-shell stream is
emitted to the transport output events as it arrives, unmodified and in
arrival order, regardless of the pending capture state, so the
concatenation of the emitted payloads equals the concatenation of the
chunks read from the stream. -/
theorem shell_output_relay_faithful (capture : Option (List Char))
    (chunks : List (List Char)) :
    (relayShellOutput capture chunks).2 = chunks ∧
    (relayShellOutput capture chunks).2.flatten = chunks.flatten := by
  have h : (relayShellOutput capture chunks).2 = chunks := by
    simpa [relayShellOutput] using output_fold chunks capture []
  exact ⟨h, by rw [h]⟩

end DevOps
